import Mathlib

/-!
Shallow embedding of the MemGPT-style memory manager of the travel-agent
repository (`travel_planner/memory/memgpt_system.py`,
`travel_planner/memory/memory_store.py`, with the data model of
`travel_planner/models/memory.py`, the configuration of
`travel_planner/config/settings.py` and the system prompt of
`travel_planner/utils/prompts.py`).

Modelling conventions:
* Python strings are Lean `String`s; `len` is `String.length` (identical for
  the code points involved).
* `json.dumps` is embedded as an executable printer over a small JSON AST
  (`PyJson`), reproducing the default separators, `ensure_ascii` escaping and
  the `indent=2` layout.  The textual repr of Python floats is abstracted
  (`PyJson.rat` is printed as `num/den`); no float ever reaches a statement.
* Wall-clock timestamps (`datetime.now().isoformat()`) are abstracted as a
  logical counter `clock` carried in the state; each created message stamps
  and bumps the counter.
* The two external collaborators - the LLM inference call and the embedding
  distance used by the Chroma vector store - are oracle parameters
  (`Collab`).  Chroma`s nearest-neighbour query is modelled from its
  contract: return the `n_results` stored entries closest to the query,
  ordered by ascending distance.
* Python float threshold comparisons (`tokens > max * 0.9`) are modelled as
  exact rational comparisons by cross multiplication over `Nat`
  (floating-point rounding of `0.9` is abstracted).
-/

/-- The `CoreMemory` record of `models/memory.py`, with the pydantic defaults. -/
structure CoreMemory where
  user_id : String
  persona : String := "I am a helpful travel planning assistant."
  user_profile : String := "No user information yet."
  travel_style : Option String := none
  budget_range : Option String := none
  dietary_restrictions : List String := []
  accessibility_needs : List String := []
  preferred_accommodation : Option String := none
deriving Repr, DecidableEq

/-- The `ConversationMessage` model of `models/memory.py`; `metadata : Dict[str, Any]`
is modelled as an association list of string values (the code only ever
stores the string `function_name` in it). -/
structure ConversationMessage where
  role : String
  content : String
  timestamp : String
  metadata : List (String × String) := []
deriving Repr, DecidableEq

/-- JSON values as produced by the Python code (`json.dumps` inputs):
dict insertion order is preserved in `obj`. -/
inductive PyJson where
  | str (s : String)
  | num (n : Int)
  | rat (q : ℚ)
  | bool (b : Bool)
  | null
  | arr (xs : List PyJson)
  | obj (fields : List (String × PyJson))
deriving Repr

/-- Lowercase hexadecimal digit, as in Python json escapes. -/
def hexDigit (n : Nat) : Char :=
  if n < 10 then Char.ofNat (48 + n) else Char.ofNat (97 + (n - 10))

/-- Four lowercase hex digits of `n < 0x10000`. -/
def hex4 (n : Nat) : String :=
  String.mk [hexDigit (n / 4096 % 16), hexDigit (n / 256 % 16),
             hexDigit (n / 16 % 16), hexDigit (n % 16)]

/-- Escape of one character inside a JSON string literal, following
`json.dumps` with its default `ensure_ascii=True`. -/
def escapeJsonChar (c : Char) : String :=
  if c = '"' then "\\\""
  else if c = '\\' then "\\\\"
  else if c = '\n' then "\\n"
  else if c = '\t' then "\\t"
  else if c = '\r' then "\\r"
  else if c = Char.ofNat 8 then "\\b"
  else if c = Char.ofNat 12 then "\\f"
  else if c.toNat < 32 ∨ 126 < c.toNat then
    if c.toNat < 65536 then "\\u" ++ hex4 c.toNat
    else
      "\\u" ++ hex4 (55296 + (c.toNat - 65536) / 1024) ++
      "\\u" ++ hex4 (56320 + (c.toNat - 65536) % 1024)
  else String.singleton c

/-- JSON string literal for `s`, as `json.dumps` prints it. -/
def jsonStr (s : String) : String :=
  "\"" ++ String.join (s.data.map escapeJsonChar) ++ "\""

/-- Textual form of a JSON scalar that is not a string.  The repr of Python
floats is abstracted as `num/den` (floating point is out of scope; no
theorem below depends on this text). -/
def jsonScalar : PyJson → String
  | .num n => toString n
  | .rat q => toString q.num ++ "/" ++ toString q.den
  | .bool b => if b then "true" else "false"
  | .null => "null"
  | _ => ""

mutual

/-- Embedding of `json.dumps(x)` with the default separators `", "` and `": "`. -/
def pyDumps : PyJson → String
  | .str s => jsonStr s
  | .arr xs => "[" ++ pyDumpsArr xs ++ "]"
  | .obj fs => "\x7b" ++ pyDumpsObj fs ++ "\x7d"
  | v => jsonScalar v

/-- Comma-joined array elements of `json.dumps`. -/
def pyDumpsArr : List PyJson → String
  | [] => ""
  | [x] => pyDumps x
  | x :: xs => pyDumps x ++ ", " ++ pyDumpsArr xs

/-- Comma-joined object fields of `json.dumps`. -/
def pyDumpsObj : List (String × PyJson) → String
  | [] => ""
  | [(k, v)] => jsonStr k ++ ": " ++ pyDumps v
  | (k, v) :: fs => jsonStr k ++ ": " ++ pyDumps v ++ ", " ++ pyDumpsObj fs

end

/-- Spaces of the indentation at nesting `level` for `indent=2`. -/
def indentSp (level : Nat) : String :=
  String.mk (List.replicate (2 * level) ' ')

mutual

/-- Embedding of `json.dumps(x, indent=2)` at nesting depth `level`. -/
def pyDumpsInd (level : Nat) : PyJson → String
  | .str s => jsonStr s
  | .arr [] => "[]"
  | .arr xs =>
      "[\n" ++ pyDumpsIndArr (level + 1) xs ++ "\n" ++ indentSp level ++ "]"
  | .obj [] => "\x7b\x7d"
  | .obj fs =>
      "\x7b\n" ++ pyDumpsIndObj (level + 1) fs ++ "\n" ++ indentSp level ++ "\x7d"
  | v => jsonScalar v

/-- Array elements of `json.dumps(..., indent=2)`, one per line. -/
def pyDumpsIndArr (level : Nat) : List PyJson → String
  | [] => ""
  | [x] => indentSp level ++ pyDumpsInd level x
  | x :: xs => indentSp level ++ pyDumpsInd level x ++ ",\n" ++ pyDumpsIndArr level xs

/-- Object fields of `json.dumps(..., indent=2)`, one per line. -/
def pyDumpsIndObj (level : Nat) : List (String × PyJson) → String
  | [] => ""
  | [(k, v)] => indentSp level ++ jsonStr k ++ ": " ++ pyDumpsInd level v
  | (k, v) :: fs =>
      indentSp level ++ jsonStr k ++ ": " ++ pyDumpsInd level v ++ ",\n" ++
      pyDumpsIndObj level fs

end

/-- Embedding of `json.dumps(x, indent=2)` as used in `_build_prompt`. -/
def pyDumpsIndent (x : PyJson) : String := pyDumpsInd 0 x

/-- Optional string field as JSON (`None` becomes `null`). -/
def optStr : Option String → PyJson
  | none => .null
  | some s => .str s

/-- Embedding of `CoreMemory.dict()` of pydantic: all fields, in declaration order. -/
def CoreMemory.toJson (c : CoreMemory) : PyJson :=
  .obj [("user_id", .str c.user_id),
        ("persona", .str c.persona),
        ("user_profile", .str c.user_profile),
        ("travel_style", optStr c.travel_style),
        ("budget_range", optStr c.budget_range),
        ("dietary_restrictions", .arr (c.dietary_restrictions.map .str)),
        ("accessibility_needs", .arr (c.accessibility_needs.map .str)),
        ("preferred_accommodation", optStr c.preferred_accommodation)]

/-- Embedding of `ConversationMessage.dict()` of pydantic, in declaration order. -/
def ConversationMessage.toJson (m : ConversationMessage) : PyJson :=
  .obj [("role", .str m.role),
        ("content", .str m.content),
        ("timestamp", .str m.timestamp),
        ("metadata", .obj (m.metadata.map (fun kv => (kv.1, .str kv.2))))]

/-- The `MEMGPT_SYSTEM_PROMPT` constant of `utils/prompts.py`, verbatim (apostrophes are
written with the `\x27` escape).  The single Python literal is written as
a concatenation of chunks so that facts about it stay within the proof
checker reduction limits; the value is the same string. -/
def MEMGPT_SYSTEM_PROMPT : String :=
  "You are a MemGPT-powered travel planning agent with hierarchical memory management.

\x23# MEMORY ARCHITECTURE

You have access to THREE types of memory:

1. **CORE MEMORY** (always visible):
   - `persona`: Your identity and capabilities
   - `user_profile`: Critical facts about the user
   - Update with: core_memory_append(), core_memory_replace()
   - Use sparingly - only for persistent facts

2. **RECALL STORAGE** (conversation history):
   - Full history of all interactions
   - Search with: conversation_search(query, page)
   - Automatically saved - you don\x27t need to store messages here

" ++
  "3. **ARCHIVAL STORAGE** (past trips & documents):
   - Completed trip information
   - Travel preferences and patterns
   - Search with: archival_memory_search(query, page)
   - Insert with: archival_memory_insert(content, metadata)

\x23# CONTROL FLOW & HEARTBEATS

- Use `request_heartbeat=True` to chain multiple function calls
- Example: Search multiple pages, then respond
  ```
  conversation_search(\"Paris trips\", page=1, request_heartbeat=True)
  # ... review results ...
  conversation_search(\"Paris trips\", page=2, request_heartbeat=True)
  # ... review results ...
" ++
  "  send_message(\"Based on your past trips to Paris...\")
  ```

- WITHOUT heartbeat, control returns to user immediately
- Use send_message() as final action to respond to user

\x23# GUIDELINES

1. **Core Memory Management**:
   - Store only persistent facts: budget preferences, travel style, constraints
   - Update when user provides new information about themselves
   - Keep concise - limited space available

2. **When Memory Pressure Warning appears**:
   - Save important facts from conversation to core memory
   - Summarize key points before they\x27re evicted
" ++
  "   - Don\x27t panic - older messages auto-save to recall storage

3. **Search Before Claiming Ignorance**:
   - If asked about past trips, search archival storage first
   - If user references previous conversation, search recall storage
   - Chain searches across multiple pages if needed (use heartbeats)

4. **Personalization**:
   - Always check core memory for user preferences first
   - Search past trips to provide context-aware recommendations
   - Update core memory when learning new facts

5. **Travel Planning Flow**:
   - Extract preferences and save to core memory
" ++
  "   - Search archival for similar past trips
   - Generate search queries based on preferences + past patterns
   - Save completed plans to archival storage for future reference

\x23# EXAMPLE INTERACTIONS

User: \"I\x27m planning a trip to Barcelona\"
You think: Check if user has been to Barcelona or Spain before
1. archival_memory_search(\"Barcelona Spain trips\", request_heartbeat=True)
2. [Review results, none found]
3. conversation_search(\"Barcelona\", request_heartbeat=True)
4. [Review results, found mentions 6 months ago]
" ++
  "5. send_message(\"I see you were interested in Barcelona 6 months ago! Let\x27s plan that trip...\")

Remember: You control your own memory. Be strategic about what you save and retrieve."

/-- Shared boolean parameter declaration of `_define_memory_functions`. -/
def heartbeatParam : String × PyJson :=
  ("request_heartbeat",
   .obj [("type", .str "boolean"),
         ("description", .str "Request immediate follow-up inference"),
         ("default", .bool false)])

/-- The `request_heartbeat` declaration without a description, as used by
all function schemas after the first. -/
def heartbeatParamShort : String × PyJson :=
  ("request_heartbeat",
   .obj [("type", .str "boolean"), ("default", .bool false)])

/-- The function-schema list built by `_define_memory_functions`. -/
def memoryFunctions : PyJson :=
  .arr
    [.obj [("name", .str "core_memory_append"),
           ("description",
            .str "Append content to a field in core memory (persona or user_profile)"),
           ("parameters",
            .obj [("type", .str "object"),
                  ("properties",
                   .obj [("name",
                          .obj [("type", .str "string"),
                                ("enum", .arr [.str "persona", .str "user_profile"]),
                                ("description", .str "Field to append to")]),
                         ("content",
                          .obj [("type", .str "string"),
                                ("description", .str "Content to append")]),
                         heartbeatParam]),
                  ("required", .arr [.str "name", .str "content"])])],
     .obj [("name", .str "core_memory_replace"),
           ("description", .str "Replace content in core memory"),
           ("parameters",
            .obj [("type", .str "object"),
                  ("properties",
                   .obj [("name",
                          .obj [("type", .str "string"),
                                ("enum", .arr [.str "persona", .str "user_profile"]),
                                ("description", .str "Field to modify")]),
                         ("old_content",
                          .obj [("type", .str "string"),
                                ("description", .str "Content to replace")]),
                         ("new_content",
                          .obj [("type", .str "string"),
                                ("description", .str "New content")]),
                         heartbeatParamShort]),
                  ("required", .arr [.str "name", .str "old_content", .str "new_content"])])],
     .obj [("name", .str "conversation_search"),
           ("description", .str "Semantic search over conversation history"),
           ("parameters",
            .obj [("type", .str "object"),
                  ("properties",
                   .obj [("query",
                          .obj [("type", .str "string"),
                                ("description", .str "Search query")]),
                         ("page",
                          .obj [("type", .str "integer"),
                                ("description", .str "Page number for pagination"),
                                ("default", .num 1)]),
                         heartbeatParamShort]),
                  ("required", .arr [.str "query"])])],
     .obj [("name", .str "archival_memory_search"),
           ("description", .str "Search past trips and travel documents"),
           ("parameters",
            .obj [("type", .str "object"),
                  ("properties",
                   .obj [("query",
                          .obj [("type", .str "string"),
                                ("description", .str "Search query")]),
                         ("page",
                          .obj [("type", .str "integer"), ("default", .num 1)]),
                         heartbeatParamShort]),
                  ("required", .arr [.str "query"])])],
     .obj [("name", .str "archival_memory_insert"),
           ("description", .str "Store a trip memory or travel document"),
           ("parameters",
            .obj [("type", .str "object"),
                  ("properties",
                   .obj [("content",
                          .obj [("type", .str "string"),
                                ("description", .str "Content to store")]),
                         ("metadata",
                          .obj [("type", .str "object"),
                                ("description", .str "Additional metadata")]),
                         heartbeatParamShort]),
                  ("required", .arr [.str "content"])])],
     .obj [("name", .str "send_message"),
           ("description", .str "Send a message to the user"),
           ("parameters",
            .obj [("type", .str "object"),
                  ("properties",
                   .obj [("message",
                          .obj [("type", .str "string"),
                                ("description", .str "Message to send")]),
                         heartbeatParamShort]),
                  ("required", .arr [.str "message"])])]]

/-- The MemGPT settings of `config/settings.py`.  The two float fractions
`MEMORY_WARNING_THRESHOLD = 0.7` and `FLUSH_THRESHOLD = 0.9` are carried as
exact numerator/denominator pairs. -/
structure Config where
  max_tokens : Nat := 8000
  warning_fraction : Nat × Nat := (7, 10)
  flush_fraction : Nat × Nat := (9, 10)

/-- The comparison `estimate > max * fraction`, compared exactly by cross multiplication. -/
def exceedsFraction (estimate maxTokens : Nat) (frac : Nat × Nat) : Bool :=
  maxTokens * frac.1 < estimate * frac.2

/-- One archival-store entry: `(content, metadata)`; the derived embedding
vector lives in the external collaborator. -/
structure ArchEntry where
  content : String
  metadata : List (String × String)
deriving Repr, DecidableEq

/-- The mutable state of one `MemGPTSystem` together with its
`MemoryStore`: working context, FIFO queue, rolling summary, the persisted
recall / archival collections and the persisted core-memory record.
`clock` abstracts wall-clock timestamps. -/
structure SysState where
  working_context : CoreMemory
  fifo_queue : List ConversationMessage
  queue_summary : String
  recall_store : List ConversationMessage
  archival_store : List ArchEntry
  saved_core : Option CoreMemory
  clock : Nat
deriving Repr, DecidableEq

/-- Prompt messages handed to the inference collaborator
(langchain message classes). -/
inductive PMsg where
  | system (content : String)
  | human (content : String)
  | ai (content : String)
  | function (name : String) (content : String)
deriving Repr, DecidableEq

/-- Arguments of one tool call.  Python reads required keys directly and
optional keys with `args.get(key, default)`; the record defaults model the
`get` defaults. -/
structure Args where
  name : String := ""
  content : String := ""
  old_content : String := ""
  new_content : String := ""
  query : String := ""
  page : Nat := 1
  metadata : List (String × String) := []
  message : String := ""
  request_heartbeat : Bool := false
deriving Repr, DecidableEq

/-- One requested operation of an inference round. -/
structure ToolCall where
  name : String
  args : Args
deriving Repr, DecidableEq

/-- Result of one inference call: free text plus requested operations. -/
structure LLMResponse where
  tool_calls : List ToolCall
  content : String
deriving Repr, DecidableEq

/-- External collaborators: the LLM inference call, and the embedding
distance `dist query document` backing the Chroma vector store. -/
structure Collab where
  infer : List PMsg → LLMResponse
  dist : String → String → ℚ

/-- Stable insertion of `x` into a list already ordered by ascending key. -/
def insertByKey (key : ArchEntry → ℚ) (x : ArchEntry) : List ArchEntry → List ArchEntry
  | [] => [x]
  | y :: ys => if key x < key y then x :: y :: ys else y :: insertByKey key x ys

/-- Modelled from the contract of the external Chroma collection `query`
call (the vector store is a third-party collaborator): return the
`n_results` stored entries nearest to the query, ordered by ascending
distance, ties kept in insertion order. -/
def chromaQuery (key : ArchEntry → ℚ) (store : List ArchEntry) (nResults : Nat) :
    List ArchEntry :=
  (store.foldl (fun acc e => insertByKey key e acc) []).take nResults

/-- One formatted search result of `MemoryStore`. -/
structure SearchResult where
  content : String
  metadata : List (String × String)
  relevance_score : ℚ
deriving Repr, DecidableEq

/-- The recall collection entry stored by `save_conversation_message`:
document is the content, metadata is role and timestamp merged with the
message metadata. -/
def recallEntry (m : ConversationMessage) : ArchEntry :=
  { content := m.content,
    metadata := [("role", m.role), ("timestamp", m.timestamp)] ++ m.metadata }

/-- Embedding of `MemoryStore.search_conversations`: embeds the query, computes the
unused `offset = (page - 1) * page_size`, queries Chroma for the top
`page_size` documents and formats them with `relevance_score = 1 -
distance`. -/
def search_conversations (co : Collab) (recallStore : List ConversationMessage)
    (query : String) (page : Nat) (page_size : Nat := 10) : List SearchResult :=
  let _offset := (page - 1) * page_size
  let hits := chromaQuery (fun e => co.dist query e.content)
    (recallStore.map recallEntry) page_size
  hits.map (fun e =>
    { content := e.content, metadata := e.metadata,
      relevance_score := 1 - co.dist query e.content })

/-- Embedding of `MemoryStore.search_archival`: same shape as the conversation search,
with default `page_size = 5` and no offset computation. -/
def search_archival (co : Collab) (archival : List ArchEntry)
    (query : String) (page : Nat) (page_size : Nat := 5) : List SearchResult :=
  let _page := page
  let hits := chromaQuery (fun e => co.dist query e.content) archival page_size
  hits.map (fun e =>
    { content := e.content, metadata := e.metadata,
      relevance_score := 1 - co.dist query e.content })

/-- Scan of Python `str.replace` over character lists: replace the
leftmost occurrences of a nonempty `old`, scanning left to right,
non-overlapping.  The fuel argument bounds the number of scan steps; each
step consumes at least one character, so `l.length` fuel is always
enough. -/
def pyReplaceListAux (old new : List Char) : Nat → List Char → List Char
  | 0, l => l
  | _ + 1, [] => []
  | fuel + 1, c :: rest =>
      if old.isPrefixOf (c :: rest) then
        new ++ pyReplaceListAux old new fuel (rest.drop (old.length - 1))
      else c :: pyReplaceListAux old new fuel rest

/-- Python `str.replace` scan for a nonempty pattern. -/
def pyReplaceList (old new : List Char) (l : List Char) : List Char :=
  pyReplaceListAux old new l.length l

/-- Python `s.replace(old, new)`: all non-overlapping occurrences from the
left; with an empty `old`, `new` is inserted before every character and at
the end, as CPython does. -/
def pyReplace (s old new : String) : String :=
  if old.isEmpty then
    String.mk (new.data ++ (s.data.map (fun c => [c] ++ new.data)).flatten)
  else
    String.mk (pyReplaceList old.data new.data s.data)

/-- The dictionary returned by one `_execute_function` branch.  Each branch
builds a dict with a subset of these keys; `none` marks an absent key. -/
structure FunctionResult where
  status : Option String := none
  message : Option String := none
  error : Option String := none
  results : Option (List SearchResult) := none
  page : Option Nat := none
  total_results : Option Nat := none
  request_heartbeat : Bool := false
deriving Repr, DecidableEq

/-- A present optional field of a result dict. -/
def optField (k : String) : Option PyJson → List (String × PyJson)
  | none => []
  | some j => [(k, j)]

/-- One search hit as a JSON dict, as built by `MemoryStore`. -/
def SearchResult.toJson (r : SearchResult) : PyJson :=
  .obj [("content", .str r.content),
        ("metadata", .obj (r.metadata.map (fun kv => (kv.1, .str kv.2)))),
        ("relevance_score", .rat r.relevance_score)]

/-- The result dict of `_execute_function` as JSON.  Listing the present
keys in the fixed order status, message, error, results, page,
total_results, request_heartbeat reproduces the insertion order of every
branch of the source. -/
def FunctionResult.toJson (r : FunctionResult) : PyJson :=
  .obj (optField "status" (r.status.map .str) ++
        optField "message" (r.message.map .str) ++
        optField "error" (r.error.map .str) ++
        optField "results" (r.results.map (fun rs => .arr (rs.map SearchResult.toJson))) ++
        optField "page" (r.page.map (fun n => .num n)) ++
        optField "total_results" (r.total_results.map (fun n => .num n)) ++
        [("request_heartbeat", .bool r.request_heartbeat)])

/-- Embedding of `MemGPTSystem._execute_function`: dispatch on the operation name,
mutate the state, and return the result dict. -/
def execute_function (co : Collab) (st : SysState) (function_name : String)
    (args : Args) : SysState × FunctionResult :=
  let request_heartbeat := args.request_heartbeat
  if function_name = "core_memory_append" then
    let field := args.name
    let wc := st.working_context
    let wc2 :=
      if field = "persona" then
        { wc with persona := wc.persona ++ "\n" ++ args.content }
      else if field = "user_profile" then
        { wc with user_profile := wc.user_profile ++ "\n" ++ args.content }
      else wc
    ({ st with working_context := wc2, saved_core := some wc2 },
     { status := some "success", message := some ("Appended to " ++ field),
       request_heartbeat := request_heartbeat })
  else if function_name = "core_memory_replace" then
    let field := args.name
    let wc := st.working_context
    let wc2 :=
      if field = "persona" then
        { wc with persona := pyReplace wc.persona args.old_content args.new_content }
      else if field = "user_profile" then
        { wc with user_profile := pyReplace wc.user_profile args.old_content args.new_content }
      else wc
    ({ st with working_context := wc2, saved_core := some wc2 },
     { status := some "success", message := some ("Replaced content in " ++ field),
       request_heartbeat := request_heartbeat })
  else if function_name = "conversation_search" then
    let results := search_conversations co st.recall_store args.query args.page
    (st, { results := some results, page := some args.page,
           total_results := some results.length,
           request_heartbeat := request_heartbeat })
  else if function_name = "archival_memory_search" then
    let results := search_archival co st.archival_store args.query args.page
    (st, { results := some results, page := some args.page,
           request_heartbeat := request_heartbeat })
  else if function_name = "archival_memory_insert" then
    ({ st with archival_store :=
         st.archival_store ++ [{ content := args.content, metadata := args.metadata }] },
     { status := some "success", message := some "Stored in archival memory",
       request_heartbeat := request_heartbeat })
  else if function_name = "send_message" then
    (st, { message := some args.message, request_heartbeat := request_heartbeat })
  else
    (st, { error := some ("Unknown function: " ++ function_name),
           request_heartbeat := false })

/-- Embedding of `metadata.get(key, default)` over the association-list metadata. -/
def metaGet (md : List (String × String)) (k dflt : String) : String :=
  match md.find? (fun kv => kv.1 == k) with
  | some kv => kv.2
  | none => dflt

/-- The system message content of `_build_prompt`: instructions, function
schemas, core memory and queue summary (with its empty-summary default). -/
def sysContent (st : SysState) : String :=
  MEMGPT_SYSTEM_PROMPT ++ "\n\n## AVAILABLE FUNCTIONS\n" ++
  pyDumpsIndent memoryFunctions ++ "\n\n## CORE MEMORY\n" ++
  pyDumpsIndent st.working_context.toJson ++ "\n\n## QUEUE SUMMARY\n" ++
  (if st.queue_summary = "" then "No messages evicted yet." else st.queue_summary) ++
  "\n"

/-- Conversion of one queue message to a prompt message, per the role
dispatch of `_build_prompt`; a role outside the four known ones is
silently skipped. -/
def toPromptMsg (m : ConversationMessage) : Option PMsg :=
  if m.role = "user" then some (.human m.content)
  else if m.role = "assistant" then some (.ai m.content)
  else if m.role = "function" then
    some (.function (metaGet m.metadata "function_name" "unknown") m.content)
  else if m.role = "system" then some (.system m.content)
  else none

/-- Embedding of `MemGPTSystem._build_prompt`: one system message, then the last 20
queue messages converted in order. -/
def build_prompt (st : SysState) : List PMsg :=
  PMsg.system (sysContent st) ::
    (st.fifo_queue.drop (st.fifo_queue.length - 20)).filterMap toPromptMsg

/-- Embedding of `MemGPTSystem._calculate_context_size`: length of instructions + core
dict json + queue json + summary, divided by 4. -/
def calculate_context_size (st : SysState) : Nat :=
  (MEMGPT_SYSTEM_PROMPT ++ pyDumps st.working_context.toJson ++
   pyDumps (.arr (st.fifo_queue.map ConversationMessage.toJson)) ++
   st.queue_summary).length / 4

/-- The fixed fallback text of `_agent_loop_with_heartbeats`. -/
def fallbackApology : String :=
  "I apologize, but I encountered an issue processing your request."

/-- Python `final_response or fallback`: `None` and the empty string both
fall through to the fallback. -/
def pyOr (fr : Option String) (dflt : String) : String :=
  match fr with
  | none => dflt
  | some s => if s = "" then dflt else s

/-- The function-result message appended to the queue after one tool call. -/
def mkFunctionMsg (st : SysState) (name : String) (res : FunctionResult) :
    ConversationMessage :=
  { role := "function", content := pyDumps res.toJson,
    timestamp := toString st.clock, metadata := [("function_name", name)] }

/-- The inner `for tool_call in response.tool_calls` loop of
`_agent_loop_with_heartbeats`.  `Sum.inl` is the early `return
final_response` taken by a `send_message` without heartbeat (skipping the
remaining calls of the round); `Sum.inr` carries the state, the heartbeat
flag of the last executed call and the pending final response. -/
def processToolCalls (co : Collab) :
    SysState → List ToolCall → Bool → Option String →
    (SysState × String) ⊕ (SysState × Bool × Option String)
  | st, [], hb, fr => .inr (st, hb, fr)
  | st, tc :: rest, _hb, fr =>
      let stRes := execute_function co st tc.name tc.args
      let st2 := { stRes.1 with
                    fifo_queue := stRes.1.fifo_queue ++ [mkFunctionMsg stRes.1 tc.name stRes.2],
                    clock := stRes.1.clock + 1 }
      let hb2 := stRes.2.request_heartbeat
      if tc.name = "send_message" then
        if hb2 then processToolCalls co st2 rest hb2 (some (stRes.2.message.getD ""))
        else .inl (st2, stRes.2.message.getD "")
      else processToolCalls co st2 rest hb2 fr

/-- Outcome of the agent loop: final state, returned text, and the final
value of the source's `iteration` counter (number of inference rounds
executed). -/
structure LoopResult where
  st : SysState
  response : String
  iters : Nat
deriving Repr, DecidableEq

/-- The `while heartbeat_requested and iteration < max_iterations` loop of
`_agent_loop_with_heartbeats`; `fuel` is `max_iterations - iteration`. -/
def agentLoopAux (co : Collab) :
    Nat → SysState → Bool → Option String → Nat → LoopResult
  | 0, st, _hb, fr, iters => ⟨st, pyOr fr fallbackApology, iters⟩
  | fuel + 1, st, hb, fr, iters =>
      if hb then
        let resp := co.infer (build_prompt st)
        if resp.tool_calls.isEmpty then
          let aMsg : ConversationMessage :=
            { role := "assistant", content := resp.content,
              timestamp := toString st.clock, metadata := [] }
          let st2 := { st with fifo_queue := st.fifo_queue ++ [aMsg],
                               recall_store := st.recall_store ++ [aMsg],
                               clock := st.clock + 1 }
          agentLoopAux co fuel st2 false (some resp.content) (iters + 1)
        else
          match processToolCalls co st resp.tool_calls hb fr with
          | .inl (st2, msg) => ⟨st2, msg, iters + 1⟩
          | .inr (st2, hb2, fr2) => agentLoopAux co fuel st2 hb2 fr2 (iters + 1)
      else ⟨st, pyOr fr fallbackApology, iters⟩

/-- The hard iteration cap of `_agent_loop_with_heartbeats`. -/
def max_iterations : Nat := 10

/-- Embedding of `MemGPTSystem._agent_loop_with_heartbeats`, with the final value of its
`iteration` counter exposed alongside state and returned text. -/
def agent_loop_with_heartbeats (co : Collab) (st : SysState) : LoopResult :=
  agentLoopAux co max_iterations st true none 0

/-- The recursive-summary prompt string built by `_flush_queue`. -/
def summaryPrompt (prev evictedText : String) : String :=
  "Previous summary: " ++ prev ++ "\n\nNew messages to summarize:\n" ++
  evictedText ++
  "\n\nCreate a concise summary combining the previous summary with new messages. \nFocus on user preferences, requests, and important context."

/-- The `role: content` transcript of the evicted messages. -/
def evictedTranscript (evicted : List ConversationMessage) : String :=
  String.intercalate "\n" (evicted.map (fun m => m.role ++ ": " ++ m.content))

/-- Embedding of `MemGPTSystem._flush_queue`: below 10 queued messages, do nothing;
otherwise keep the newest `len // 2` messages and fold the evicted prefix
into the rolling summary through the inference collaborator. -/
def flush_queue (co : Collab) (st : SysState) : SysState :=
  if st.fifo_queue.length < 10 then st
  else
    let keep_count := st.fifo_queue.length / 2
    let evicted := st.fifo_queue.take (st.fifo_queue.length - keep_count)
    let kept := st.fifo_queue.drop (st.fifo_queue.length - keep_count)
    let newSummary :=
      (co.infer [PMsg.system
        (summaryPrompt st.queue_summary (evictedTranscript evicted))]).content
    { st with fifo_queue := kept, queue_summary := newSummary }

/-- The dictionary returned by `process_message`. -/
structure ProcessResult where
  response : String
  context_usage : Nat
  max_context : Nat
  state : SysState
deriving Repr, DecidableEq

/-- The memory-pressure warning message appended when the estimate exceeds
the warning fraction. -/
def warningMsg (current_tokens maxTokens clock : Nat) : ConversationMessage :=
  { role := "system",
    content := "⚠️ Memory Pressure Warning: " ++ toString current_tokens ++ "/" ++
               toString maxTokens ++ " tokens used. Consider saving important information to core memory or archival storage.",
    timestamp := toString clock, metadata := [] }

/-- Embedding of `MemGPTSystem.process_message`: append the user message to queue and
recall store, estimate context pressure, run the agent loop, and flush the
queue when the (pre-loop) estimate exceeds the flush fraction. -/
def process_message (co : Collab) (cfg : Config) (st : SysState)
    (user_message : String) : ProcessResult :=
  let userMsg : ConversationMessage :=
    { role := "user", content := user_message, timestamp := toString st.clock,
      metadata := [] }
  let st1 := { st with fifo_queue := st.fifo_queue ++ [userMsg],
                       recall_store := st.recall_store ++ [userMsg],
                       clock := st.clock + 1 }
  let current_tokens := calculate_context_size st1
  let st2 :=
    if exceedsFraction current_tokens cfg.max_tokens cfg.warning_fraction then
      { st1 with
          fifo_queue := st1.fifo_queue ++ [warningMsg current_tokens cfg.max_tokens st1.clock],
          clock := st1.clock + 1 }
    else st1
  let lr := agent_loop_with_heartbeats co st2
  let st4 :=
    if exceedsFraction current_tokens cfg.max_tokens cfg.flush_fraction then
      flush_queue co lr.st
    else lr.st
  { response := lr.response, context_usage := current_tokens,
    max_context := cfg.max_tokens, state := st4 }

/-- The heartbeat flag carried by the result dict of one executed
operation: the requested flag for every known operation, `false` for an
unknown operation name. -/
def isKnownOp (n : String) : Bool :=
  if n = "core_memory_append" then true
  else if n = "core_memory_replace" then true
  else if n = "conversation_search" then true
  else if n = "archival_memory_search" then true
  else if n = "archival_memory_insert" then true
  else if n = "send_message" then true
  else false

/-- Heartbeat of the result produced by executing `tc`, as a function of
the call alone (the state never influences it). -/
def resultHeartbeat (tc : ToolCall) : Bool :=
  if isKnownOp tc.name then tc.args.request_heartbeat else false

/-- The four message roles the system itself creates. -/
def validRole (m : ConversationMessage) : Prop :=
  m.role = "user" ∨ m.role = "assistant" ∨ m.role = "function" ∨ m.role = "system"

instance (m : ConversationMessage) : Decidable (validRole m) := by
  unfold validRole
  infer_instance

/-- Total version of the role dispatch of `_build_prompt`, agreeing with
`toPromptMsg` on the four valid roles. -/
def promptMsgOf (m : ConversationMessage) : PMsg :=
  if m.role = "user" then .human m.content
  else if m.role = "assistant" then .ai m.content
  else if m.role = "function" then
    .function (metaGet m.metadata "function_name" "unknown") m.content
  else .system m.content

/-- State component of either outcome of the inner tool-call loop. -/
def ptcOutState : (SysState × String) ⊕ (SysState × Bool × Option String) → SysState
  | .inl x => x.1
  | .inr x => x.1

/-- A scripted collaborator that on every round requests at least one
operation, never `send_message`, and only known operations with
`request_heartbeat=true`. -/
def alwaysToolHeartbeat (co : Collab) : Prop :=
  ∀ p, (co.infer p).tool_calls ≠ [] ∧
    ∀ tc ∈ (co.infer p).tool_calls,
      tc.name ≠ "send_message" ∧ isKnownOp tc.name = true ∧
      tc.args.request_heartbeat = true

/-- Collaborator returning plain text and no tool calls. -/
def coZero : Collab :=
  { infer := fun _ => { tool_calls := [], content := "" },
    dist := fun _ _ => 0 }

/-- Scripted collaborator: every round one known non-terminal operation
with heartbeat requested. -/
def coAlwaysHB : Collab :=
  { infer := fun _ =>
      { tool_calls := [⟨"archival_memory_insert",
                        { content := "note", request_heartbeat := true }⟩],
        content := "" },
    dist := fun _ _ => 0 }

/-- Scripted collaborator: one round of two operations, the first with
heartbeat requested, the second without. -/
def coLastFalse : Collab :=
  { infer := fun _ =>
      { tool_calls := [⟨"archival_memory_insert",
                        { content := "a", request_heartbeat := true }⟩,
                       ⟨"archival_memory_insert",
                        { content := "b", request_heartbeat := false }⟩],
        content := "" },
    dist := fun _ _ => 0 }

/-- Scripted collaborator: a single operation without heartbeat. -/
def coInsertOnce : Collab :=
  { infer := fun _ =>
      { tool_calls := [⟨"archival_memory_insert",
                        { content := "note", request_heartbeat := false }⟩],
        content := "" },
    dist := fun _ _ => 0 }

/-- A 400-character model reply, used to push the context estimate past
the flush fraction during one agent-loop round. -/
def bigContent : String := String.mk (List.replicate 400 'a')

/-- Collaborator replying with a very long plain text and no tool calls. -/
def coBig : Collab :=
  { infer := fun _ => { tool_calls := [], content := bigContent },
    dist := fun _ _ => 0 }

/-- Fresh session state with an empty queue and empty stores. -/
def baseState : SysState :=
  { working_context := { user_id := "u1" }, fifo_queue := [], queue_summary := "",
    recall_store := [], archival_store := [], saved_core := none, clock := 0 }

/-- A one-character user message with timestamp `i`. -/
def shortMsg (i : Nat) : ConversationMessage :=
  { role := "user", content := "m", timestamp := toString i, metadata := [] }

/-- Fresh state whose queue holds `n` short user messages. -/
def queueN (n : Nat) : SysState :=
  { baseState with fifo_queue := (List.range n).map shortMsg, clock := n }

/-- Default settings (`MAX_CONTEXT_TOKENS = 8000`). -/
def cfgDefault : Config := {}

/-- Settings with a small context budget, to exercise the flush check. -/
def cfgSmall : Config := { max_tokens := 1100 }

/-- A full `process_message` run in which the agent loop itself pushes the
context estimate past the flush fraction. -/
def C8run : ProcessResult := process_message coBig cfgSmall (queueN 9) "hi"

/-- One `core_memory_append` dispatch with the given arguments. -/
def appendStep (co : Collab) (st : SysState) (field content : String)
    (hb : Bool) : SysState × FunctionResult :=
  execute_function co st "core_memory_append"
    { name := field, content := content, request_heartbeat := hb }

/-- One `core_memory_replace` dispatch with the given arguments. -/
def replaceStep (co : Collab) (st : SysState) (field old new : String)
    (hb : Bool) : SysState × FunctionResult :=
  execute_function co st "core_memory_replace"
    { name := field, old_content := old, new_content := new,
      request_heartbeat := hb }

/-- The state right after `process_message` appends the incoming user
message to the queue and mirrors it to the recall store. -/
def appendUserState (st : SysState) (user_message : String) : SysState :=
  { st with
      fifo_queue := st.fifo_queue ++
        [{ role := "user", content := user_message,
           timestamp := toString st.clock, metadata := [] }],
      recall_store := st.recall_store ++
        [{ role := "user", content := user_message,
           timestamp := toString st.clock, metadata := [] }],
      clock := st.clock + 1 }

/-- The state handed to the agent loop: the user message appended, plus
the memory-pressure warning when the pre-loop estimate exceeds the
warning fraction. -/
def preLoopState (cfg : Config) (st : SysState) (user_message : String) : SysState :=
  let st1 := appendUserState st user_message
  if exceedsFraction (calculate_context_size st1) cfg.max_tokens cfg.warning_fraction then
    { st1 with
        fifo_queue := st1.fifo_queue ++
          [warningMsg (calculate_context_size st1) cfg.max_tokens st1.clock],
        clock := st1.clock + 1 }
  else st1

theorem String.mk_data_eq (s : String) : String.mk s.data = s := rfl

/-- Executing any operation returns the requested heartbeat flag for known
operation names and `false` for unknown ones; the state plays no role. -/
theorem execute_function_heartbeat (co : Collab) (st : SysState) (n : String)
    (a : Args) :
    (execute_function co st n a).2.request_heartbeat = resultHeartbeat ⟨n, a⟩ := by
  simp only [execute_function, resultHeartbeat, isKnownOp]
  split_ifs <;> simp_all

/-- Executing an operation never writes to the recall store. -/
theorem execute_function_recall (co : Collab) (st : SysState) (n : String)
    (a : Args) :
    (execute_function co st n a).1.recall_store = st.recall_store := by
  simp only [execute_function]
  split_ifs <;> rfl

/-- The inner tool-call loop never writes to the recall store. -/
theorem processToolCalls_recall (co : Collab) :
    ∀ (tcs : List ToolCall) (st : SysState) (hb : Bool) (fr : Option String),
    (ptcOutState (processToolCalls co st tcs hb fr)).recall_store = st.recall_store := by
  intro tcs
  induction tcs with
  | nil => intro st hb fr; rfl
  | cons tc rest ih =>
      intro st hb fr
      simp only [processToolCalls]
      split_ifs with hsend hhb
      · rw [ih]
        simp [execute_function_recall]
      · simp [ptcOutState, execute_function_recall]
      · rw [ih]
        simp [execute_function_recall]

/-- Over a round whose operations contain no `send_message`, the inner loop
always continues to the heartbeat decision, carrying the heartbeat of the
last executed operation and the unchanged pending response. -/
theorem processToolCalls_noSend (co : Collab) :
    ∀ (tcs : List ToolCall) (st : SysState) (hb : Bool) (fr : Option String),
    tcs ≠ [] → (∀ tc ∈ tcs, tc.name ≠ "send_message") →
    ∃ st2 tcLast, tcs.getLast? = some tcLast ∧
      processToolCalls co st tcs hb fr =
        .inr (st2, resultHeartbeat tcLast, fr) := by
  intro tcs
  induction tcs with
  | nil => intro st hb fr hne; exact absurd rfl hne
  | cons tc rest ih =>
      intro st hb fr _ hns
      have htc : tc.name ≠ "send_message" := hns tc (List.mem_cons_self tc rest)
      cases rest with
      | nil =>
          refine ⟨{ (execute_function co st tc.name tc.args).1 with
                     fifo_queue := (execute_function co st tc.name tc.args).1.fifo_queue ++
                       [mkFunctionMsg (execute_function co st tc.name tc.args).1 tc.name
                         (execute_function co st tc.name tc.args).2],
                     clock := (execute_function co st tc.name tc.args).1.clock + 1 },
                  tc, rfl, ?_⟩
          simp only [processToolCalls, if_neg htc, execute_function_heartbeat]
      | cons tc2 rest2 =>
          have hns2 : ∀ t ∈ tc2 :: rest2, t.name ≠ "send_message" := by
            intro t ht
            exact hns t (List.mem_cons_of_mem tc ht)
          obtain ⟨st2, tcLast, hlast, heq⟩ :=
            ih ({ (execute_function co st tc.name tc.args).1 with
                   fifo_queue := (execute_function co st tc.name tc.args).1.fifo_queue ++
                     [mkFunctionMsg (execute_function co st tc.name tc.args).1 tc.name
                       (execute_function co st tc.name tc.args).2],
                   clock := (execute_function co st tc.name tc.args).1.clock + 1 })
               (execute_function co st tc.name tc.args).2.request_heartbeat fr
               (by simp) hns2
          refine ⟨st2, tcLast, ?_, ?_⟩
          · rw [List.getLast?_cons_cons]
            exact hlast
          · simp only [processToolCalls, if_neg htc]
            exact heq

/-- The loop with a spent heartbeat flag stops at once. -/
theorem agentLoopAux_false (co : Collab) (fuel : Nat) (st : SysState)
    (fr : Option String) (iters : Nat) :
    agentLoopAux co fuel st false fr iters = ⟨st, pyOr fr fallbackApology, iters⟩ := by
  cases fuel <;> rfl

/-- The iteration counter never decreases below its incoming value. -/
theorem agentLoopAux_iters_ge (co : Collab) :
    ∀ (fuel : Nat) (st : SysState) (hb : Bool) (fr : Option String) (iters : Nat),
    iters ≤ (agentLoopAux co fuel st hb fr iters).iters := by
  intro fuel
  induction fuel with
  | zero => intro st hb fr iters; exact Nat.le_refl _
  | succ fuel ih =>
      intro st hb fr iters
      cases hb with
      | false =>
          rw [agentLoopAux_false]
      | true =>
          simp only [agentLoopAux, if_true]
          by_cases he : (co.infer (build_prompt st)).tool_calls.isEmpty = true
          · rw [if_pos he]
            exact Nat.le_trans (Nat.le_succ _) (ih _ _ _ _)
          · rw [if_neg he]
            cases hp : processToolCalls co st (co.infer (build_prompt st)).tool_calls true fr with
            | inl x =>
                obtain ⟨st2, msg⟩ := x
                exact Nat.le_succ _
            | inr x =>
                obtain ⟨st2, hb2, fr2⟩ := x
                exact Nat.le_trans (Nat.le_succ _) (ih _ _ _ _)

/-- The loop executes at most `fuel` further iterations. -/
theorem agentLoopAux_iters_le (co : Collab) :
    ∀ (fuel : Nat) (st : SysState) (hb : Bool) (fr : Option String) (iters : Nat),
    (agentLoopAux co fuel st hb fr iters).iters ≤ iters + fuel := by
  intro fuel
  induction fuel with
  | zero => intro st hb fr iters; exact Nat.le_refl _
  | succ fuel ih =>
      intro st hb fr iters
      cases hb with
      | false =>
          rw [agentLoopAux_false]
          exact Nat.le_add_right _ _
      | true =>
          simp only [agentLoopAux, if_true]
          by_cases he : (co.infer (build_prompt st)).tool_calls.isEmpty = true
          · rw [if_pos he]
            exact Nat.le_trans (ih _ _ _ _) (by omega)
          · rw [if_neg he]
            cases hp : processToolCalls co st (co.infer (build_prompt st)).tool_calls true fr with
            | inl x =>
                obtain ⟨st2, msg⟩ := x
                show iters + 1 ≤ iters + (fuel + 1)
                omega
            | inr x =>
                obtain ⟨st2, hb2, fr2⟩ := x
                exact Nat.le_trans (ih _ _ _ _) (by omega)

/-- With fuel left and the heartbeat set, at least one more iteration runs. -/
theorem agentLoopAux_iters_succ (co : Collab) (fuel : Nat) (st : SysState)
    (fr : Option String) (iters : Nat) :
    iters + 1 ≤ (agentLoopAux co (fuel + 1) st true fr iters).iters := by
  simp only [agentLoopAux, if_true]
  by_cases he : (co.infer (build_prompt st)).tool_calls.isEmpty = true
  · rw [if_pos he]
    exact agentLoopAux_iters_ge co _ _ _ _ _
  · rw [if_neg he]
    cases hp : processToolCalls co st (co.infer (build_prompt st)).tool_calls true fr with
    | inl x =>
        obtain ⟨st2, msg⟩ := x
        exact Nat.le_refl _
    | inr x =>
        obtain ⟨st2, hb2, fr2⟩ := x
        exact agentLoopAux_iters_ge co _ _ _ _ _

/-- Every message the agent loop adds to the recall store has the
assistant role (function-result messages are only queued). -/
theorem agentLoopAux_recall_roles (co : Collab) :
    ∀ (fuel : Nat) (st : SysState) (hb : Bool) (fr : Option String) (iters : Nat)
      (m : ConversationMessage),
    m ∈ (agentLoopAux co fuel st hb fr iters).st.recall_store →
    m ∈ st.recall_store ∨ m.role = "assistant" := by
  intro fuel
  induction fuel with
  | zero => intro st hb fr iters m hm; exact Or.inl hm
  | succ fuel ih =>
      intro st hb fr iters m hm
      cases hb with
      | false =>
          rw [agentLoopAux_false] at hm
          exact Or.inl hm
      | true =>
          simp only [agentLoopAux, if_true] at hm
          by_cases he : (co.infer (build_prompt st)).tool_calls.isEmpty = true
          · rw [if_pos he] at hm
            rcases ih _ _ _ _ _ hm with h | h
            · rcases List.mem_append.mp h with h1 | h1
              · exact Or.inl h1
              · right
                rw [List.mem_singleton.mp h1]
            · exact Or.inr h
          · rw [if_neg he] at hm
            rcases hp : processToolCalls co st (co.infer (build_prompt st)).tool_calls true fr with
              x | x
            · obtain ⟨st2, msg⟩ := x
              rw [hp] at hm
              have h2 : m ∈ st2.recall_store := hm
              have h3 : st2.recall_store = st.recall_store := by
                have h4 := processToolCalls_recall co
                  (co.infer (build_prompt st)).tool_calls st true fr
                rw [hp] at h4
                exact h4
              rw [h3] at h2
              exact Or.inl h2
            · obtain ⟨st2, hb2, fr2⟩ := x
              rw [hp] at hm
              have h2 : m ∈ (agentLoopAux co fuel st2 hb2 fr2 (iters + 1)).st.recall_store := hm
              have h3 : st2.recall_store = st.recall_store := by
                have h4 := processToolCalls_recall co
                  (co.infer (build_prompt st)).tool_calls st true fr
                rw [hp] at h4
                exact h4
              rcases ih _ _ _ _ _ h2 with h | h
              · rw [h3] at h
                exact Or.inl h
              · exact Or.inr h

/-- Under a collaborator that always requests known, non-terminal
operations with heartbeat, the loop burns all remaining fuel and falls
back to the apology text. -/
theorem agentLoopAux_alwaysHB (co : Collab) (hco : alwaysToolHeartbeat co) :
    ∀ (fuel : Nat) (st : SysState) (iters : Nat),
    (agentLoopAux co fuel st true none iters).response = fallbackApology ∧
    (agentLoopAux co fuel st true none iters).iters = iters + fuel := by
  intro fuel
  induction fuel with
  | zero => intro st iters; exact ⟨rfl, rfl⟩
  | succ fuel ih =>
      intro st iters
      obtain ⟨hne, hall⟩ := hco (build_prompt st)
      have he : ¬ ((co.infer (build_prompt st)).tool_calls.isEmpty = true) := by
        cases h : (co.infer (build_prompt st)).tool_calls with
        | nil => exact absurd h hne
        | cons a l => simp
      simp only [agentLoopAux, if_true]
      rw [if_neg he]
      obtain ⟨st2, tcLast, hlast, heq⟩ :=
        processToolCalls_noSend co (co.infer (build_prompt st)).tool_calls st true none
          hne (fun tc htc => (hall tc htc).1)
      rw [heq]
      have hhb : resultHeartbeat tcLast = true := by
        have hmem : tcLast ∈ (co.infer (build_prompt st)).tool_calls :=
          List.mem_of_mem_getLast? hlast
        obtain ⟨_, hknown, hrb⟩ := hall tcLast hmem
        simp [resultHeartbeat, hknown, hrb]
      rw [hhb]
      have hrec := ih st2 (iters + 1)
      refine ⟨hrec.1, hrec.2.trans (by omega)⟩

/-- When the pattern does not occur in the list, the Python-style replace
scan leaves the list unchanged, whatever the fuel. -/
theorem pyReplaceListAux_of_not_infix (old new : List Char) :
    ∀ (fuel : Nat) (l : List Char), ¬ (old <:+: l) →
      pyReplaceListAux old new fuel l = l := by
  intro fuel
  induction fuel with
  | zero => intro l _; rfl
  | succ fuel ih =>
      intro l h
      cases l with
      | nil => rfl
      | cons c rest =>
          have hpre : ¬ (old.isPrefixOf (c :: rest) = true) := by
            intro hx
            exact h (List.isPrefixOf_iff_prefix.mp hx).isInfix
          rw [pyReplaceListAux, if_neg hpre, ih rest (fun hx => h (List.infix_cons hx))]

/-- When the pattern does not occur in the list, the replace scan is the
identity. -/
theorem pyReplaceList_of_not_infix (old new : List Char)
    (l : List Char) (h : ¬ (old <:+: l)) : pyReplaceList old new l = l :=
  pyReplaceListAux_of_not_infix old new l.length l h

/-- Python `s.replace(old, new)` is the identity when `old` is absent from
`s` (substring check over the character lists). -/
theorem pyReplace_of_not_infix (s old new : String)
    (h : ¬ (old.data <:+: s.data)) : pyReplace s old new = s := by
  have hne : ¬ (old.isEmpty = true) := by
    intro hx
    apply h
    rw [(String.isEmpty_iff old).mp hx]
    exact List.nil_infix
  rw [pyReplace, if_neg hne, pyReplaceList_of_not_infix old.data new.data s.data h]

/-- On the four known roles, the prompt conversion never drops a message
and agrees with its total form. -/
theorem toPromptMsg_valid (m : ConversationMessage) (h : validRole m) :
    toPromptMsg m = some (promptMsgOf m) := by
  rcases h with h | h | h | h <;> simp [toPromptMsg, promptMsgOf, h]

/-- Over a queue of valid-role messages, prompt conversion is a plain map. -/
theorem filterMap_toPromptMsg (l : List ConversationMessage)
    (h : ∀ m ∈ l, validRole m) :
    l.filterMap toPromptMsg = l.map promptMsgOf := by
  induction l with
  | nil => rfl
  | cons a l ih =>
      rw [List.filterMap_cons, toPromptMsg_valid a (h a (List.mem_cons_self a l))]
      rw [List.map_cons, ih (fun m hm => h m (List.mem_cons_of_mem a hm))]

/-- C1 counterexample: a round whose first operation requests a heartbeat
and whose last does not.  The claim predicts another inference round
(`iters` at least 2, and with this constant collaborator in fact the cap),
but the loop stops after round 1 because only the last executed call's
flag survives. -/
theorem C1_counterexample :
    ((coLastFalse.infer (build_prompt baseState)).tool_calls.filter
        (fun tc => tc.args.request_heartbeat)).length = 1 ∧
    (agent_loop_with_heartbeats coLastFalse baseState).iters = 1 :=
  ⟨by decide, by decide⟩

set_option maxHeartbeats 1000000 in
/-- C1 (amended): after a round of operations none of which is
`send_message`, the loop runs another inference round if and only if the
LAST executed operation of the round requested a heartbeat (heartbeats of
earlier operations in the round are overwritten). -/
theorem C1_last_heartbeat_decides (co : Collab) (st : SysState) (tcLast : ToolCall)
    (h1 : (co.infer (build_prompt st)).tool_calls.getLast? = some tcLast)
    (h2 : ∀ tc ∈ (co.infer (build_prompt st)).tool_calls, tc.name ≠ "send_message") :
    (2 ≤ (agent_loop_with_heartbeats co st).iters ↔ resultHeartbeat tcLast = true) := by
  have hne : (co.infer (build_prompt st)).tool_calls ≠ [] := by
    intro hx
    rw [hx] at h1
    exact Option.noConfusion h1
  have he : ¬ ((co.infer (build_prompt st)).tool_calls.isEmpty = true) := by
    cases h : (co.infer (build_prompt st)).tool_calls with
    | nil => exact absurd h hne
    | cons a l => simp
  obtain ⟨st2, tcL, hlast, heq⟩ :=
    processToolCalls_noSend co (co.infer (build_prompt st)).tool_calls st true none hne h2
  have htcL : tcL = tcLast := by
    rw [hlast] at h1
    exact Option.some.inj h1
  rw [htcL] at heq
  show 2 ≤ (agentLoopAux co (9 + 1) st true none 0).iters ↔ _
  simp only [agentLoopAux, if_true]
  rw [if_neg he, heq]
  cases hrb : resultHeartbeat tcLast with
  | false =>
      rw [hrb] at heq
      show 2 ≤ (agentLoopAux co 9 st2 false none 1).iters ↔ (false = true)
      rw [agentLoopAux_false]
      simp
  | true =>
      rw [hrb] at heq
      show 2 ≤ (agentLoopAux co 9 st2 true none 1).iters ↔ (true = true)
      exact iff_of_true (agentLoopAux_iters_succ co 8 st2 none 1) rfl

/-- C1 witness: one known non-terminal operation with heartbeat requested;
the loop indeed continues past the first round. -/
theorem C1_last_heartbeat_decides_witness :
    (coAlwaysHB.infer (build_prompt baseState)).tool_calls.getLast? =
      some ⟨"archival_memory_insert", { content := "note", request_heartbeat := true }⟩ ∧
    (2 ≤ (agent_loop_with_heartbeats coAlwaysHB baseState).iters ↔
      resultHeartbeat ⟨"archival_memory_insert",
        { content := "note", request_heartbeat := true }⟩ = true) :=
  ⟨by decide,
   C1_last_heartbeat_decides coAlwaysHB baseState _ (by decide) (by decide)⟩

/-- C4: the agent loop performs at most 10 inference rounds, and a
collaborator that always requests known non-terminal operations with
heartbeat (never `send_message`) drives it to exactly 10 rounds and the
fixed fallback apology text. -/
theorem C4_iteration_cap (co : Collab) (st : SysState) :
    (agent_loop_with_heartbeats co st).iters ≤ 10 ∧
    (alwaysToolHeartbeat co →
      (agent_loop_with_heartbeats co st).iters = 10 ∧
      (agent_loop_with_heartbeats co st).response = fallbackApology) := by
  constructor
  · have h := agentLoopAux_iters_le co max_iterations st true none 0
    simpa [agent_loop_with_heartbeats, max_iterations] using h
  · intro hco
    have h := agentLoopAux_alwaysHB co hco max_iterations st 0
    constructor
    · simpa [agent_loop_with_heartbeats, max_iterations] using h.2
    · simpa [agent_loop_with_heartbeats, max_iterations] using h.1

/-- C4 witness: the scripted always-heartbeat collaborator reaches the cap
and returns the apology text. -/
theorem C4_iteration_cap_witness :
    alwaysToolHeartbeat coAlwaysHB ∧
    (agent_loop_with_heartbeats coAlwaysHB baseState).iters = 10 ∧
    (agent_loop_with_heartbeats coAlwaysHB baseState).response = fallbackApology := by
  have hco : alwaysToolHeartbeat coAlwaysHB := by
    intro p
    show ([ToolCall.mk "archival_memory_insert" { content := "note", request_heartbeat := true }] ≠ []) ∧
      ∀ tc ∈ [ToolCall.mk "archival_memory_insert" { content := "note", request_heartbeat := true }],
        tc.name ≠ "send_message" ∧ isKnownOp tc.name = true ∧ tc.args.request_heartbeat = true
    decide
  exact ⟨hco, (C4_iteration_cap coAlwaysHB baseState).2 hco⟩

/-- C2 counterexample: appending to the unrecognized field `budget` does
not return an unsupported-field error; the result dict reports plain
success (and the unchanged record is re-persisted). -/
theorem C2_counterexample :
    (execute_function coZero baseState "core_memory_append"
        { name := "budget", content := "x" }).2.error = none ∧
    (execute_function coZero baseState "core_memory_append"
        { name := "budget", content := "x" }).2.status = some "success" ∧
    (execute_function coZero baseState "core_memory_append"
        { name := "budget", content := "x" }).2.message = some "Appended to budget" ∧
    (execute_function coZero baseState "core_memory_append"
        { name := "budget", content := "x" }).1.working_context =
      baseState.working_context :=
  ⟨rfl, rfl, rfl, rfl⟩

/-- C2 (amended): `core_memory_append` with an unrecognized field leaves
the core-memory record unchanged but reports success (no
unsupported-field error) and still re-persists the record; with a
recognized field it concatenates the content after a newline separator
and persists immediately, so the content is a trailing substring of the
field afterwards. -/
theorem C2_append_contract (co : Collab) (st : SysState) (field content : String)
    (hb : Bool) :
    ((field ≠ "persona" ∧ field ≠ "user_profile") →
      (appendStep co st field content hb).1.working_context = st.working_context ∧
      (appendStep co st field content hb).1.saved_core = some st.working_context ∧
      (appendStep co st field content hb).2.error = none ∧
      (appendStep co st field content hb).2.status = some "success" ∧
      (appendStep co st field content hb).2.message = some ("Appended to " ++ field)) ∧
    (field = "user_profile" →
      (appendStep co st field content hb).1.working_context.user_profile =
        st.working_context.user_profile ++ "\n" ++ content ∧
      (appendStep co st field content hb).1.saved_core =
        some (appendStep co st field content hb).1.working_context ∧
      ∃ pre, (appendStep co st field content hb).1.working_context.user_profile =
        pre ++ content) ∧
    (field = "persona" →
      (appendStep co st field content hb).1.working_context.persona =
        st.working_context.persona ++ "\n" ++ content ∧
      (appendStep co st field content hb).1.saved_core =
        some (appendStep co st field content hb).1.working_context ∧
      ∃ pre, (appendStep co st field content hb).1.working_context.persona =
        pre ++ content) := by
  refine ⟨?_, ?_, ?_⟩
  · rintro ⟨h1, h2⟩
    simp [appendStep, execute_function, h1, h2]
  · rintro rfl
    refine ⟨?_, ?_, ⟨st.working_context.user_profile ++ "\n", ?_⟩⟩ <;>
      simp [appendStep, execute_function]
  · rintro rfl
    refine ⟨?_, ?_, ⟨st.working_context.persona ++ "\n", ?_⟩⟩ <;>
      simp [appendStep, execute_function]

/-- C2 witness: the amended contract applied to an unrecognized field and
to the `user_profile` field. -/
theorem C2_append_contract_witness :
    (("budget" : String) ≠ "persona" ∧ ("budget" : String) ≠ "user_profile") ∧
    ((appendStep coZero baseState "budget" "x" false).1.working_context =
        baseState.working_context ∧
      (appendStep coZero baseState "budget" "x" false).1.saved_core =
        some baseState.working_context ∧
      (appendStep coZero baseState "budget" "x" false).2.error = none ∧
      (appendStep coZero baseState "budget" "x" false).2.status = some "success" ∧
      (appendStep coZero baseState "budget" "x" false).2.message =
        some ("Appended to " ++ "budget")) ∧
    ((appendStep coZero baseState "user_profile" "likes trains" false).1.working_context.user_profile =
        baseState.working_context.user_profile ++ "\n" ++ "likes trains" ∧
      (appendStep coZero baseState "user_profile" "likes trains" false).1.saved_core =
        some (appendStep coZero baseState "user_profile" "likes trains" false).1.working_context ∧
      ∃ pre, (appendStep coZero baseState "user_profile" "likes trains" false).1.working_context.user_profile =
        pre ++ "likes trains") :=
  ⟨⟨by decide, by decide⟩,
   (C2_append_contract coZero baseState "budget" "x" false).1 ⟨by decide, by decide⟩,
   ((C2_append_contract coZero baseState "user_profile" "likes trains" false).2.1 rfl)⟩

/-- C3 counterexample: replacing the absent substring `xyz` leaves the
field unchanged, but the recorded outcome is exactly the same success
dict a mutating replace returns - no "not found" outcome exists. -/
theorem C3_counterexample :
    (execute_function coZero baseState "core_memory_replace"
        { name := "user_profile", old_content := "xyz", new_content := "q" }).2 =
      { status := some "success", message := some "Replaced content in user_profile",
        request_heartbeat := false } ∧
    (execute_function coZero baseState "core_memory_replace"
        { name := "user_profile", old_content := "xyz", new_content := "q" }).1.working_context =
      baseState.working_context :=
  ⟨rfl, by decide⟩

/-- C3 (amended): `core_memory_replace` substitutes all occurrences of
`old` in the named field (leaving the field unchanged when `old` is
absent, and never raising), but it always records the same success
outcome, never a "not found" outcome; an unrecognized field leaves the
record unchanged. -/
theorem C3_replace_contract (co : Collab) (st : SysState) (field old new : String)
    (hb : Bool) :
    ((replaceStep co st field old new hb).2.status = some "success" ∧
      (replaceStep co st field old new hb).2.message =
        some ("Replaced content in " ++ field) ∧
      (replaceStep co st field old new hb).2.error = none) ∧
    (field = "user_profile" →
      (replaceStep co st field old new hb).1.working_context.user_profile =
        pyReplace st.working_context.user_profile old new ∧
      (¬ (old.data <:+: st.working_context.user_profile.data) →
        (replaceStep co st field old new hb).1.working_context.user_profile =
          st.working_context.user_profile)) ∧
    (field = "persona" →
      (replaceStep co st field old new hb).1.working_context.persona =
        pyReplace st.working_context.persona old new ∧
      (¬ (old.data <:+: st.working_context.persona.data) →
        (replaceStep co st field old new hb).1.working_context.persona =
          st.working_context.persona)) ∧
    ((field ≠ "persona" ∧ field ≠ "user_profile") →
      (replaceStep co st field old new hb).1.working_context = st.working_context) := by
  refine ⟨?_, ?_, ?_, ?_⟩
  · refine ⟨?_, ?_, ?_⟩ <;> simp [replaceStep, execute_function]
  · rintro rfl
    constructor
    · simp [replaceStep, execute_function]
    · intro habs
      simp [replaceStep, execute_function, pyReplace_of_not_infix _ _ _ habs]
  · rintro rfl
    constructor
    · simp [replaceStep, execute_function]
    · intro habs
      simp [replaceStep, execute_function, pyReplace_of_not_infix _ _ _ habs]
  · rintro ⟨h1, h2⟩
    simp [replaceStep, execute_function, h1, h2]

/-- C3 witness: the amended contract applied to a replace whose target is
absent from `user_profile`. -/
theorem C3_replace_contract_witness :
    ((replaceStep coZero baseState "user_profile" "xyz" "q" false).2.status =
        some "success" ∧
      (replaceStep coZero baseState "user_profile" "xyz" "q" false).2.message =
        some ("Replaced content in " ++ "user_profile") ∧
      (replaceStep coZero baseState "user_profile" "xyz" "q" false).2.error = none) ∧
    ¬ (("xyz" : String).data <:+: baseState.working_context.user_profile.data) ∧
    (replaceStep coZero baseState "user_profile" "xyz" "q" false).1.working_context.user_profile =
      baseState.working_context.user_profile := by
  have habs : ¬ (("xyz" : String).data <:+: baseState.working_context.user_profile.data) := by
    decide
  exact ⟨(C3_replace_contract coZero baseState "user_profile" "xyz" "q" false).1,
         habs,
         ((C3_replace_contract coZero baseState "user_profile" "xyz" "q" false).2.1 rfl).2 habs⟩

/-- C5 counterexample: on a queue of 5 messages, `flush()` evicts nothing
(below the minimum working size), so the post-flush length 5 exceeds the
claimed universal bound of the ceiling of 5 / 2. -/
theorem C5_counterexample :
    (flush_queue coZero (queueN 5)).fifo_queue.length = 5 ∧
    ¬ ((flush_queue coZero (queueN 5)).fifo_queue.length ≤
        ((queueN 5).fifo_queue.length + 1) / 2) :=
  ⟨by decide, by decide⟩

/-- C5 (amended): once the queue holds at least the minimum working size
of 10 messages, `flush()` keeps exactly the newest half (the floor of
n / 2 messages, in place and in order, which is within the claimed
ceiling bound) and evicts the oldest remainder; below 10 messages it is a
no-op and the bound fails. -/
theorem C5_flush_halves_queue (co : Collab) (st : SysState)
    (h : 10 ≤ st.fifo_queue.length) :
    (flush_queue co st).fifo_queue =
      st.fifo_queue.drop (st.fifo_queue.length - st.fifo_queue.length / 2) ∧
    (flush_queue co st).fifo_queue.length = st.fifo_queue.length / 2 ∧
    (flush_queue co st).fifo_queue.length ≤ (st.fifo_queue.length + 1) / 2 := by
  have hn : ¬ (st.fifo_queue.length < 10) := by omega
  have hq : (flush_queue co st).fifo_queue =
      st.fifo_queue.drop (st.fifo_queue.length - st.fifo_queue.length / 2) := by
    simp only [flush_queue, if_neg hn]
  refine ⟨hq, ?_, ?_⟩
  · rw [hq, List.length_drop]
    omega
  · rw [hq, List.length_drop]
    omega

/-- C5 witness: the amended flush contract on a 10-message queue. -/
theorem C5_flush_halves_queue_witness :
    10 ≤ (queueN 10).fifo_queue.length ∧
    ((flush_queue coZero (queueN 10)).fifo_queue =
      (queueN 10).fifo_queue.drop
        ((queueN 10).fifo_queue.length - (queueN 10).fifo_queue.length / 2) ∧
    (flush_queue coZero (queueN 10)).fifo_queue.length =
      (queueN 10).fifo_queue.length / 2 ∧
    (flush_queue coZero (queueN 10)).fifo_queue.length ≤
      ((queueN 10).fifo_queue.length + 1) / 2) :=
  ⟨by decide, C5_flush_halves_queue coZero (queueN 10) (by decide)⟩

/-- C6: every flush that evicts messages builds the new queue summary by
invoking the inference collaborator on the summary prompt, a string that
contains both the previous summary and the full evicted transcript. -/
theorem C6_summary_merges_previous (co : Collab) (st : SysState)
    (h : 10 ≤ st.fifo_queue.length) :
    (flush_queue co st).queue_summary =
      (co.infer [PMsg.system (summaryPrompt st.queue_summary
        (evictedTranscript (st.fifo_queue.take
          (st.fifo_queue.length - st.fifo_queue.length / 2))))]).content ∧
    (∀ prev evicted : String, ∃ a b : String,
        summaryPrompt prev evicted = a ++ (prev ++ b)) ∧
    (∀ prev evicted : String, ∃ a b : String,
        summaryPrompt prev evicted = a ++ (evicted ++ b)) := by
  have hn : ¬ (st.fifo_queue.length < 10) := by omega
  refine ⟨?_, ?_, ?_⟩
  · simp only [flush_queue, if_neg hn]
  · intro prev evicted
    refine ⟨"Previous summary: ", "\n\nNew messages to summarize:\n" ++ (evicted ++
      "\n\nCreate a concise summary combining the previous summary with new messages. \nFocus on user preferences, requests, and important context."), ?_⟩
    simp [summaryPrompt, String.append_assoc]
  · intro prev evicted
    refine ⟨"Previous summary: " ++ (prev ++ "\n\nNew messages to summarize:\n"),
      "\n\nCreate a concise summary combining the previous summary with new messages. \nFocus on user preferences, requests, and important context.", ?_⟩
    simp [summaryPrompt, String.append_assoc]

/-- C6 witness: the merge-forward flush contract on a 10-message queue. -/
theorem C6_summary_merges_previous_witness :
    10 ≤ (queueN 10).fifo_queue.length ∧
    ((flush_queue coZero (queueN 10)).queue_summary =
      (coZero.infer [PMsg.system (summaryPrompt (queueN 10).queue_summary
        (evictedTranscript ((queueN 10).fifo_queue.take
          ((queueN 10).fifo_queue.length - (queueN 10).fifo_queue.length / 2))))]).content ∧
    (∀ prev evicted : String, ∃ a b : String,
        summaryPrompt prev evicted = a ++ (prev ++ b)) ∧
    (∀ prev evicted : String, ∃ a b : String,
        summaryPrompt prev evicted = a ++ (evicted ++ b))) :=
  ⟨by decide, C6_summary_merges_previous coZero (queueN 10) (by decide)⟩

/-- C7 counterexample: a round with one tool call queues a function-result
message but writes nothing to the recall store, so not every queued
message has a recall copy. -/
theorem C7_counterexample :
    ((agent_loop_with_heartbeats coInsertOnce baseState).st.fifo_queue.filter
        (fun m => m.role == "function")).length = 1 ∧
    (agent_loop_with_heartbeats coInsertOnce baseState).st.recall_store = [] :=
  ⟨by decide, by decide⟩

/-- C7 (amended): the only messages `process_message` mirrors to the
recall store are the incoming user message and assistant replies from
no-tool-call rounds; function-result messages and memory-pressure
warnings are queued without a recall copy. -/
theorem C7_recall_gets_only_user_and_assistant (co : Collab) (cfg : Config)
    (st : SysState) (msg : String) (m : ConversationMessage)
    (h : m ∈ (process_message co cfg st msg).state.recall_store) :
    m ∈ st.recall_store ∨ m.role = "user" ∨ m.role = "assistant" := by
  have hflush : ∀ s : SysState, (flush_queue co s).recall_store = s.recall_store := by
    intro s
    simp only [flush_queue]
    split <;> rfl
  simp only [process_message] at h
  have hmain : ∀ (y : SysState),
      m ∈ (agent_loop_with_heartbeats co y).st.recall_store →
      y.recall_store = st.recall_store ++
        [{ role := "user", content := msg, timestamp := toString st.clock,
           metadata := [] }] →
      m ∈ st.recall_store ∨ m.role = "user" ∨ m.role = "assistant" := by
    intro y hy hrec
    rcases agentLoopAux_recall_roles co max_iterations y true none 0 m hy with h2 | h2
    · rw [hrec] at h2
      rcases List.mem_append.mp h2 with h3 | h3
      · exact Or.inl h3
      · right
        left
        rw [List.mem_singleton.mp h3]
    · exact Or.inr (Or.inr h2)
  split at h
  · rw [hflush] at h
    split at h
    · exact hmain _ h rfl
    · exact hmain _ h rfl
  · split at h
    · exact hmain _ h rfl
    · exact hmain _ h rfl

/-- Flushing never touches the recall store. -/
theorem flush_queue_recall (co : Collab) (s : SysState) :
    (flush_queue co s).recall_store = s.recall_store := by
  simp only [flush_queue]
  split <;> rfl

/-- Queue length after an eviction flush: the floor of half. -/
theorem flush_queue_length (co : Collab) (s : SysState)
    (h : 10 ≤ s.fifo_queue.length) :
    (flush_queue co s).fifo_queue.length = s.fifo_queue.length / 2 := by
  have hn : ¬ (s.fifo_queue.length < 10) := by omega
  simp only [flush_queue, if_neg hn, List.length_drop]
  omega

/-- The pre-loop state appends exactly the user message to the recall
store, warning or not. -/
theorem preLoopState_recall (cfg : Config) (st : SysState) (msg : String) :
    (preLoopState cfg st msg).recall_store =
      st.recall_store ++
        [{ role := "user", content := msg, timestamp := toString st.clock,
           metadata := [] }] := by
  simp only [preLoopState, appendUserState]
  split <;> rfl

/-- One loop round under a collaborator that requests no operations: the
reply is stored as an assistant message (queued and mirrored to recall)
and the heartbeat is cleared, so the loop stops. -/
theorem agentLoopAux_noTools_step (co : Collab)
    (hco : ∀ p, (co.infer p).tool_calls = [])
    (fuel : Nat) (y : SysState) (fr : Option String) (iters : Nat) :
    agentLoopAux co (fuel + 1) y true fr iters =
      ⟨{ y with
          fifo_queue := y.fifo_queue ++
            [{ role := "assistant", content := (co.infer (build_prompt y)).content,
               timestamp := toString y.clock, metadata := [] }],
          recall_store := y.recall_store ++
            [{ role := "assistant", content := (co.infer (build_prompt y)).content,
               timestamp := toString y.clock, metadata := [] }],
          clock := y.clock + 1 },
        pyOr (some (co.infer (build_prompt y)).content) fallbackApology, iters + 1⟩ := by
  simp only [agentLoopAux, if_true]
  rw [if_pos (by rw [hco (build_prompt y)]; rfl)]
  rw [agentLoopAux_false]

/-- The full loop under a collaborator that never requests operations:
exactly one round. -/
theorem agentLoop_noToolCalls (co : Collab) (y : SysState)
    (hco : ∀ p, (co.infer p).tool_calls = []) :
    agent_loop_with_heartbeats co y =
      ⟨{ y with
          fifo_queue := y.fifo_queue ++
            [{ role := "assistant", content := (co.infer (build_prompt y)).content,
               timestamp := toString y.clock, metadata := [] }],
          recall_store := y.recall_store ++
            [{ role := "assistant", content := (co.infer (build_prompt y)).content,
               timestamp := toString y.clock, metadata := [] }],
          clock := y.clock + 1 },
        pyOr (some (co.infer (build_prompt y)).content) fallbackApology, 1⟩ := by
  show agentLoopAux co (9 + 1) y true none 0 = _
  rw [agentLoopAux_noTools_step co hco 9 y none 0]

/-- Recall store after a no-operations loop: the assistant reply is
mirrored. -/
theorem agentLoop_noToolCalls_recall (co : Collab) (y : SysState)
    (hco : ∀ p, (co.infer p).tool_calls = []) :
    (agent_loop_with_heartbeats co y).st.recall_store =
      y.recall_store ++
        [{ role := "assistant", content := (co.infer (build_prompt y)).content,
           timestamp := toString y.clock, metadata := [] }] := by
  rw [agentLoop_noToolCalls co y hco]

/-- Queue after a no-operations loop: the assistant reply is appended. -/
theorem agentLoop_noToolCalls_queue (co : Collab) (y : SysState)
    (hco : ∀ p, (co.infer p).tool_calls = []) :
    (agent_loop_with_heartbeats co y).st.fifo_queue =
      y.fifo_queue ++
        [{ role := "assistant", content := (co.infer (build_prompt y)).content,
           timestamp := toString y.clock, metadata := [] }] := by
  rw [agentLoop_noToolCalls co y hco]

/-- The state returned by `process_message`: the agent loop runs on the
pre-loop state, and the flush decision compares the pre-loop estimate
(computed before the loop) against the flush fraction. -/
theorem process_message_state_eq (co : Collab) (cfg : Config) (st : SysState)
    (msg : String) :
    (process_message co cfg st msg).state =
      (if exceedsFraction (calculate_context_size (appendUserState st msg))
            cfg.max_tokens cfg.flush_fraction
       then flush_queue co (agent_loop_with_heartbeats co (preLoopState cfg st msg)).st
       else (agent_loop_with_heartbeats co (preLoopState cfg st msg)).st) := rfl

/-- The usage figure `process_message` reports is the pre-loop estimate. -/
theorem process_message_context_usage (co : Collab) (cfg : Config)
    (st : SysState) (msg : String) :
    (process_message co cfg st msg).context_usage =
      calculate_context_size (appendUserState st msg) := rfl

/-- The context estimate, decomposed into the lengths of its four
components. -/
theorem calculate_context_size_eq (st : SysState) :
    calculate_context_size st =
      (MEMGPT_SYSTEM_PROMPT.length +
       ((pyDumps st.working_context.toJson).length +
        ((pyDumps (PyJson.arr (st.fifo_queue.map ConversationMessage.toJson))).length +
         st.queue_summary.length))) / 4 := by
  simp only [calculate_context_size, String.length_append, Nat.add_assoc]

set_option maxRecDepth 40000 in
/-- Length of the fixed system prompt. -/
theorem MEMGPT_SYSTEM_PROMPT_length : MEMGPT_SYSTEM_PROMPT.length = 3017 := by
  simp only [MEMGPT_SYSTEM_PROMPT, String.length_append]
  decide

set_option maxRecDepth 40000 in
/-- C7 witness: the user message itself sits in the recall store after a
run, and it satisfies the amended role restriction. -/
theorem C7_recall_gets_only_user_and_assistant_witness :
    ({ role := "user", content := "hi", timestamp := "0", metadata := [] } :
        ConversationMessage) ∈
      (process_message coZero cfgDefault baseState "hi").state.recall_store ∧
    (({ role := "user", content := "hi", timestamp := "0", metadata := [] } :
        ConversationMessage) ∈ baseState.recall_store ∨
      ({ role := "user", content := "hi", timestamp := "0", metadata := [] } :
        ConversationMessage).role = "user" ∨
      ({ role := "user", content := "hi", timestamp := "0", metadata := [] } :
        ConversationMessage).role = "assistant") := by
  have hmem : ({ role := "user", content := "hi", timestamp := "0", metadata := [] } :
      ConversationMessage) ∈
      (process_message coZero cfgDefault baseState "hi").state.recall_store := by
    rw [process_message_state_eq]
    split
    · rw [flush_queue_recall, agentLoop_noToolCalls_recall coZero _ (fun p => rfl),
          preLoopState_recall]
      refine List.mem_append.mpr (Or.inl ?_)
      refine List.mem_append.mpr (Or.inr ?_)
      simp [baseState]
      decide
    · rw [agentLoop_noToolCalls_recall coZero _ (fun p => rfl), preLoopState_recall]
      refine List.mem_append.mpr (Or.inl ?_)
      refine List.mem_append.mpr (Or.inr ?_)
      simp [baseState]
      decide
  exact ⟨hmem,
    C7_recall_gets_only_user_and_assistant coZero cfgDefault baseState "hi" _ hmem⟩

/-- Loop state after a no-operations round, as a record. -/
theorem agentLoop_noToolCalls_state (co : Collab) (y : SysState)
    (hco : ∀ p, (co.infer p).tool_calls = []) :
    (agent_loop_with_heartbeats co y).st =
      { y with
          fifo_queue := y.fifo_queue ++
            [{ role := "assistant", content := (co.infer (build_prompt y)).content,
               timestamp := toString y.clock, metadata := [] }],
          recall_store := y.recall_store ++
            [{ role := "assistant", content := (co.infer (build_prompt y)).content,
               timestamp := toString y.clock, metadata := [] }],
          clock := y.clock + 1 } := by
  rw [agentLoop_noToolCalls co y hco]

/-- C8: the flush decision on termination, and the reported usage, both
use the context estimate computed before the agent loop ran (right after
the user message was appended); the estimate is not recomputed at
termination. -/
theorem C8_flush_decision_uses_preloop_estimate (co : Collab) (cfg : Config)
    (st : SysState) (msg : String) :
    (process_message co cfg st msg).context_usage =
      calculate_context_size (appendUserState st msg) ∧
    (process_message co cfg st msg).state =
      (if exceedsFraction (calculate_context_size (appendUserState st msg))
            cfg.max_tokens cfg.flush_fraction
       then flush_queue co (agent_loop_with_heartbeats co (preLoopState cfg st msg)).st
       else (agent_loop_with_heartbeats co (preLoopState cfg st msg)).st) :=
  ⟨rfl, rfl⟩

set_option maxRecDepth 200000 in
/-- C8 counterexample: a run in which the agent loop itself grows the
context past the flush fraction.  The pre-loop estimate is 986 of 1100
tokens (below the 0.9 flush fraction, so no flush is invoked), yet at
termination the estimate is 1155 (above the fraction): `must_flush` holds
on termination while the returned queue still has its unflushed 12
messages (flushing would leave 6). -/
theorem C8_counterexample :
    exceedsFraction C8run.context_usage cfgSmall.max_tokens
      cfgSmall.flush_fraction = false ∧
    exceedsFraction (calculate_context_size C8run.state) cfgSmall.max_tokens
      cfgSmall.flush_fraction = true ∧
    C8run.state.fifo_queue.length = 12 ∧
    (flush_queue coBig C8run.state).fifo_queue.length = 6 := by
  have hPre : calculate_context_size (appendUserState (queueN 9) "hi") = 986 := by
    rw [calculate_context_size_eq, MEMGPT_SYSTEM_PROMPT_length]
    decide
  have hW : preLoopState cfgSmall (queueN 9) "hi" =
      { appendUserState (queueN 9) "hi" with
          fifo_queue := (appendUserState (queueN 9) "hi").fifo_queue ++
            [warningMsg 986 cfgSmall.max_tokens (appendUserState (queueN 9) "hi").clock],
          clock := (appendUserState (queueN 9) "hi").clock + 1 } := by
    simp only [preLoopState]
    rw [hPre, if_pos (by decide)]
  have hstate : C8run.state =
      (agent_loop_with_heartbeats coBig (preLoopState cfgSmall (queueN 9) "hi")).st := by
    show (process_message coBig cfgSmall (queueN 9) "hi").state = _
    rw [process_message_state_eq, hPre]
    rw [if_neg (by decide)]
  have hstate2 : C8run.state =
      { preLoopState cfgSmall (queueN 9) "hi" with
          fifo_queue := (preLoopState cfgSmall (queueN 9) "hi").fifo_queue ++
            [{ role := "assistant",
               content := (coBig.infer (build_prompt (preLoopState cfgSmall (queueN 9) "hi"))).content,
               timestamp := toString (preLoopState cfgSmall (queueN 9) "hi").clock,
               metadata := [] }],
          recall_store := (preLoopState cfgSmall (queueN 9) "hi").recall_store ++
            [{ role := "assistant",
               content := (coBig.infer (build_prompt (preLoopState cfgSmall (queueN 9) "hi"))).content,
               timestamp := toString (preLoopState cfgSmall (queueN 9) "hi").clock,
               metadata := [] }],
          clock := (preLoopState cfgSmall (queueN 9) "hi").clock + 1 } := by
    rw [hstate, agentLoop_noToolCalls_state coBig _ (fun p => rfl)]
  have hlen : C8run.state.fifo_queue.length = 12 := by
    rw [hstate2, hW]
    decide
  have hpost : calculate_context_size C8run.state = 1155 := by
    rw [hstate2, hW, calculate_context_size_eq, MEMGPT_SYSTEM_PROMPT_length]
    decide
  refine ⟨?_, ?_, hlen, ?_⟩
  · have h0 : C8run.context_usage =
        calculate_context_size (appendUserState (queueN 9) "hi") :=
      process_message_context_usage coBig cfgSmall (queueN 9) "hi"
    rw [h0, hPre]
    decide
  · rw [hpost]
    decide
  · rw [flush_queue_length coBig C8run.state (by rw [hlen]; omega), hlen]

/-- C9 (code bug): the `page` argument of both stores is ignored - the
offset `(page - 1) * page_size` is computed but never applied to the
vector query - so every page returns the identical top-`page_size`
ranking instead of the page-th segment. -/
theorem C9_page_ignored (co : Collab) (recallStore : List ConversationMessage)
    (archivalStore : List ArchEntry) (q : String) (p1 p2 ps : Nat) :
    search_conversations co recallStore q p1 ps =
      search_conversations co recallStore q p2 ps ∧
    search_archival co archivalStore q p1 ps =
      search_archival co archivalStore q p2 ps :=
  ⟨rfl, rfl⟩

/-- C10: the prompt is one leading system message - whose text contains
the core-memory JSON and the queue summary - followed by exactly the
min(queue length, 20) most recent queue messages converted in their
original order; older queue messages are omitted even if never
summarized. -/
theorem C10_prompt_shape (st : SysState)
    (h : ∀ m ∈ st.fifo_queue, validRole m) :
    build_prompt st =
      PMsg.system (sysContent st) ::
        (st.fifo_queue.drop (st.fifo_queue.length - 20)).map promptMsgOf ∧
    (build_prompt st).length = 1 + min 20 st.fifo_queue.length ∧
    (∃ a b : String, sysContent st =
        a ++ (pyDumpsIndent st.working_context.toJson ++ b)) ∧
    (st.queue_summary ≠ "" →
      ∃ a b : String, sysContent st = a ++ (st.queue_summary ++ b)) := by
  have hdrop : ∀ m ∈ st.fifo_queue.drop (st.fifo_queue.length - 20), validRole m :=
    fun m hm => h m (List.mem_of_mem_drop hm)
  refine ⟨?_, ?_, ?_, ?_⟩
  · rw [build_prompt, filterMap_toPromptMsg _ hdrop]
  · rw [build_prompt, filterMap_toPromptMsg _ hdrop]
    simp only [List.length_cons, List.length_map, List.length_drop]
    omega
  · refine ⟨MEMGPT_SYSTEM_PROMPT ++ "\n\n## AVAILABLE FUNCTIONS\n" ++
      pyDumpsIndent memoryFunctions ++ "\n\n## CORE MEMORY\n",
      "\n\n## QUEUE SUMMARY\n" ++
        (if st.queue_summary = "" then "No messages evicted yet."
         else st.queue_summary) ++ "\n", ?_⟩
    simp only [sysContent, String.append_assoc]
  · intro hq
    refine ⟨MEMGPT_SYSTEM_PROMPT ++ "\n\n## AVAILABLE FUNCTIONS\n" ++
      pyDumpsIndent memoryFunctions ++ "\n\n## CORE MEMORY\n" ++
      pyDumpsIndent st.working_context.toJson ++ "\n\n## QUEUE SUMMARY\n",
      "\n", ?_⟩
    rw [sysContent, if_neg hq]
    simp only [String.append_assoc]

set_option maxRecDepth 40000 in
/-- C10 witness: the prompt shape on a three-message queue of valid
roles. -/
theorem C10_prompt_shape_witness :
    (∀ m ∈ (queueN 3).fifo_queue, validRole m) ∧
    (build_prompt (queueN 3) =
      PMsg.system (sysContent (queueN 3)) ::
        ((queueN 3).fifo_queue.drop ((queueN 3).fifo_queue.length - 20)).map promptMsgOf ∧
    (build_prompt (queueN 3)).length = 1 + min 20 (queueN 3).fifo_queue.length ∧
    (∃ a b : String, sysContent (queueN 3) =
        a ++ (pyDumpsIndent (queueN 3).working_context.toJson ++ b)) ∧
    ((queueN 3).queue_summary ≠ "" →
      ∃ a b : String, sysContent (queueN 3) = a ++ ((queueN 3).queue_summary ++ b))) :=
  ⟨by decide, C10_prompt_shape (queueN 3) (by decide)⟩
